import Mathlib

/-!
Verification development for `check_fr24feed.py`, a single-file monitoring
plugin that fetches `monitor.json` from a fr24feed host, extracts freshness,
metrics and status information, compares the freshness against warning and
critical thresholds and exits with a monitoring-plugin exit code.

The Python source is shallowly embedded below.  Wall-clock time is passed
explicitly: `datetime.datetime.utcnow()` is represented as an integer count
of microseconds since the Unix epoch (the resolution of Python `datetime`),
and Unix timestamps read from the response are plain integers of seconds.
The decoded JSON response is an association list from string keys to the
values the check actually consumes (integers and strings); `json.loads`
produces a dict with unique keys, so lookup order is immaterial.
-/

set_option autoImplicit false

deriving instance DecidableEq for Except

namespace Fr24

/-- JSON values of the shapes the feeder snapshot carries: integers and
strings (the only value kinds the check reads or prints). -/
inductive JVal where
  | jint (i : Int)
  | jstr (s : String)
deriving DecidableEq

/-- Python `str` applied to a decoded JSON value: an int renders in decimal
with a leading minus when negative, a str renders as itself. -/
def pyStr : JVal → String
  | .jint i => toString i
  | .jstr s => s

/-- Whitespace in the sense of Python `str.strip()` and `int()`, restricted
to the ASCII whitespace characters that can occur in this plugin's data. -/
def isPySpace (c : Char) : Bool :=
  c = ' ' ∨ c = '\t' ∨ c = '\n' ∨ c = '\r' ∨ c = '\x0b' ∨ c = '\x0c'

/-- Drop leading Python whitespace from a character list. -/
def dropSpace : List Char → List Char
  | [] => []
  | c :: cs => if isPySpace c then dropSpace cs else c :: cs

/-- Python `str.strip()`: remove leading and trailing whitespace. -/
def pyStrip (s : String) : String :=
  ⟨(dropSpace (dropSpace s.data).reverse).reverse⟩

/-- Decimal value of a digit run, `none` when empty or when any character
is not an ASCII digit (the accumulator carries the value so far). -/
def digitsValAux : List Char → Nat → Option Nat
  | [], acc => some acc
  | c :: cs, acc =>
    if c.isDigit then digitsValAux cs (acc * 10 + (c.toNat - 48)) else none

/-- Decimal value of a non-empty digit run. -/
def digitsVal : List Char → Option Nat
  | [] => none
  | l => digitsValAux l 0

/-- Python `int` applied to a string: surrounding whitespace is stripped,
an optional single leading sign is accepted before the decimal digits;
anything else raises `ValueError` (here: `none`).  Underscore digit
grouping and non-ASCII digits, which Python also accepts, are not
modelled. -/
def pyIntOfStr (s : String) : Option Int :=
  match (pyStrip s).data with
  | '+' :: ds => (digitsVal ds).map fun n => (n : Int)
  | '-' :: ds => (digitsVal ds).map fun n => -(n : Int)
  | ds => (digitsVal ds).map fun n => (n : Int)

/-- Python `int` applied to a decoded JSON value: ints pass through,
strings are parsed as decimal integers, failure raises (here: `none`). -/
def pyInt : JVal → Option Int
  | .jint i => some i
  | .jstr s => pyIntOfStr s

/-- A decoded `monitor.json` object: string keys to JSON values. -/
def JObj := List (String × JVal)

/-- `STATE_OK = 0` from the source. -/
def STATE_OK : Int := 0

/-- `STATE_WARN = 1` from the source. -/
def STATE_WARN : Int := 1

/-- `STATE_CRIT = 2` from the source. -/
def STATE_CRIT : Int := 2

/-- `STATE_UNKNOWN = 3` from the source. -/
def STATE_UNKNOWN : Int := 3

/-- Render an optional perfdata component the way `get_perfdata` does:
nothing for `None`, Python `str` of the value otherwise. -/
def optStr : Option JVal → String
  | some v => pyStr v
  | none => ""

/-- `get_perfdata(label, value, uom, warn, crit, min, max)` from the source:
returns `'label'=value[UOM];[warn];[crit];[min];[max] ` with a trailing
space and all four semicolons present even when components are empty. -/
def get_perfdata (label : String) (value : JVal) (uom : Option String)
    (warn crit mi ma : Option JVal) : String :=
  "'" ++ label ++ "'=" ++ pyStr value
    ++ (match uom with | some u => u | none => "")
    ++ ";" ++ optStr warn ++ ";" ++ optStr crit
    ++ ";" ++ optStr mi ++ ";" ++ optStr ma ++ " "

/-- The observable end of a run: the single line printed to stdout and the
process exit code. -/
structure RunExit where
  output : String
  exitCode : Int
deriving DecidableEq

/-- `oao(msg, state, perfdata, always_ok)` from the source: print the
stripped message, with `|` and the stripped perfdata appended when the
perfdata string is non-empty, then exit with `state`, or with `STATE_OK`
when `always_ok` is true. -/
def oao (msg : String) (state : Int) (perfdata : String)
    (always_ok : Bool) : RunExit :=
  { output := if perfdata = "" then pyStrip msg
      else pyStrip msg ++ "|" ++ pyStrip perfdata
    exitCode := if always_ok then STATE_OK else state }

/-- Smallest Unix timestamp Python `datetime.utcfromtimestamp` accepts:
0001-01-01 00:00:00 UTC.  Below it the call raises and the bare `except`
of the extraction function turns the raise into a failure result. -/
def datetimeMinTs : Int := -62135596800

/-- Largest Unix timestamp Python `datetime.utcfromtimestamp` accepts:
9999-12-31 23:59:59 UTC. -/
def datetimeMaxTs : Int := 253402300799

/-- Error string returned by `get_sec_last_status` on any failure. -/
def lastStatusErr : String := "ValueError: Last Status could not be parsed"

/-- Error string returned by `get_metrics` on any failure. -/
def metricsErr : String := "ValueError: Metrics could not be parsed"

/-- Error string returned by `get_status` on any failure. -/
def statusErr : String := "ValueError: Status could not be parsed"

/-- `get_sec_last_status(data)` from the source, with the current UTC time
passed explicitly in microseconds since the epoch.  Reads
`feed_last_ac_sent_time`, converts it with `int(...)` and
`utcfromtimestamp`, and returns
`abs(now - lastsentTime).days * 86400 + abs(now - lastsentTime).seconds`,
i.e. the timedelta's whole seconds with the sub-second part discarded.
A missing key, a value `int` rejects, or a timestamp outside the `datetime`
range raises, and the bare `except` returns the failure tuple. -/
def get_sec_last_status (nowMicros : Int) (data : JObj) : Except String Nat :=
  match List.lookup "feed_last_ac_sent_time" data with
  | none => .error lastStatusErr
  | some v =>
    match pyInt v with
    | none => .error lastStatusErr
    | some t =>
      if datetimeMinTs ≤ t ∧ t ≤ datetimeMaxTs then
        let td : Nat := (nowMicros - t * 1000000).natAbs
        .ok ((td / 86400000000) * 86400 + (td / 1000000) % 86400)
      else .error lastStatusErr

/-- The metrics dict built by `get_metrics`: the three tracked-aircraft
counters, copied from the response without conversion. -/
structure Metrics where
  adsb_tracked : JVal
  non_adsb_tracked : JVal
  sum_tracked : JVal
deriving DecidableEq

/-- `get_metrics(data)` from the source: looks up the three counter keys and
returns them as a dict; a missing key raises `KeyError` and the bare
`except` returns the failure tuple.  No `int(...)` conversion is applied,
so any present value of any type is accepted. -/
def get_metrics (data : JObj) : Except String Metrics :=
  match List.lookup "feed_num_ac_adsb_tracked" data with
  | none => .error metricsErr
  | some a =>
    match List.lookup "feed_num_ac_non_adsb_tracked" data with
    | none => .error metricsErr
    | some n =>
      match List.lookup "feed_num_ac_tracked" data with
      | none => .error metricsErr
      | some s => .ok ⟨a, n, s⟩

/-- The status dict built by `get_status`: the raw status strings and the
last-connected timestamp already formatted as `YYYY-MM-DD HH:MM:SS`. -/
structure StatusInfo where
  feed_status : JVal
  last_rx_connect_status : JVal
  feed_last_connected_time : String
deriving DecidableEq

/-- Zero-pad a number to two digits, as `strftime` does for
month/day/hour/minute/second fields. -/
def pad2 (n : Nat) : String :=
  if n < 10 then "0" ++ toString n else toString n

/-- Zero-pad a number to four digits, as `strftime` renders `%Y` for the
years `datetime` supports. -/
def pad4 (n : Nat) : String :=
  if n < 10 then "000" ++ toString n
  else if n < 100 then "00" ++ toString n
  else if n < 1000 then "0" ++ toString n
  else toString n

/-- Proleptic-Gregorian date of a day count relative to 1970-01-01
(the standard civil-from-days conversion used by calendar libraries);
returns `(year, month, day)`. -/
def civilFromDays (z0 : Int) : Int × Int × Int :=
  let z := z0 + 719468
  let era := z.ediv 146097
  let doe := z.emod 146097
  let yoe := (doe - doe.ediv 1460 + doe.ediv 36524 - doe.ediv 146096).ediv 365
  let y := yoe + era * 400
  let doy := doe - (365 * yoe + yoe.ediv 4 - yoe.ediv 100)
  let mp := (5 * doy + 2).ediv 153
  let d := doy - (153 * mp + 2).ediv 5 + 1
  let m := mp + (if mp < 10 then 3 else -9)
  (if m ≤ 2 then y + 1 else y, m, d)

/-- `datetime.utcfromtimestamp(t).strftime("%Y-%m-%d %H:%M:%S")` from the
source, for timestamps within the `datetime` range. -/
def fmtUTC (t : Int) : String :=
  let sod := (t.emod 86400).toNat
  let ymd := civilFromDays (t.ediv 86400)
  pad4 ymd.1.toNat ++ "-" ++ pad2 ymd.2.1.toNat ++ "-" ++ pad2 ymd.2.2.toNat
    ++ " " ++ pad2 (sod / 3600) ++ ":" ++ pad2 (sod % 3600 / 60)
    ++ ":" ++ pad2 (sod % 60)

/-- `get_status(data)` from the source: looks up `feed_status`,
`last_rx_connect_status` and `feed_last_connected_time`, converting the
last with `int(...)` and formatting it with `utcfromtimestamp`/`strftime`;
any missing key, failed conversion or out-of-range timestamp raises and
the bare `except` returns the failure tuple. -/
def get_status (data : JObj) : Except String StatusInfo :=
  match List.lookup "feed_status" data with
  | none => .error statusErr
  | some fs =>
    match List.lookup "last_rx_connect_status" data with
    | none => .error statusErr
    | some rx =>
      match List.lookup "feed_last_connected_time" data with
      | none => .error statusErr
      | some ct =>
        match pyInt ct with
        | none => .error statusErr
        | some t =>
          if datetimeMinTs ≤ t ∧ t ≤ datetimeMaxTs then
            .ok ⟨fs, rx, fmtUTC t⟩
          else .error statusErr

/-- The message Python raises for `str + int` concatenation in the healthy
branch of the threshold block, rendered through the handler's template
`"An exception of type {0} occurred. Arguments:\n{1!r}"`. -/
def concatTypeErrMsg : String :=
  "An exception of type TypeError occurred. Arguments:\n('can only concatenate str (not \"int\") to str',)"

/-- The `try`/`except` threshold block of `main` (lines 311-331): critical
is tested first, then warning; otherwise the healthy message is built by
concatenating `feed_status` and the formatted last-connected time, which
raises `TypeError` (degrading the verdict to `STATE_UNKNOWN`) when
`feed_status` is not a string.  Returns the message and the state. -/
def thresholdEval (diffSecs : Nat) (warn crit : Int)
    (status : StatusInfo) : String × Int :=
  if (diffSecs : Int) > crit then
    ("CRIT threshold reached: " ++ toString diffSecs, STATE_CRIT)
  else if (diffSecs : Int) > warn then
    ("WARN threshold reached: " ++ toString diffSecs, STATE_WARN)
  else
    match status.feed_status with
    | .jstr s =>
      ("Feeder: OK - " ++ toString diffSecs ++ "s since last upload"
        ++ "\nStatus: "
        ++ (s ++ " since " ++ status.feed_last_connected_time), STATE_OK)
    | .jint _ => (concatTypeErrMsg, STATE_UNKNOWN)

/-- The perfdata string `main` accumulates (lines 306-308): one
`get_perfdata` fragment per counter, with no unit, no warn/crit/max and a
minimum of `0`. -/
def perfdataOf (metrics : Metrics) : String :=
  get_perfdata "adsb_tracked" metrics.adsb_tracked none none none
      (some (.jint 0)) none
    ++ get_perfdata "non_adsb_tracked" metrics.non_adsb_tracked none none none
      (some (.jint 0)) none
    ++ get_perfdata "sum_tracked" metrics.sum_tracked none none none
      (some (.jint 0)) none

/-- The parsed command-line arguments, mirroring the `dest` names of
`parse_args`. -/
structure Args where
  ALWAYS_OK : Bool
  HOST_IP : String
  HOST_PORT : String
  CRIT : Int
  WARN : Int
deriving DecidableEq

/-- The URL built by `main` (line 298). -/
def buildPath (a : Args) : String :=
  "http://" ++ a.HOST_IP ++ ":" ++ a.HOST_PORT ++ "/monitor.json"

/-- The body of `main` after argument parsing and the HTTP fetch
(lines 300-332).  The fetch outcome of `run_monitor_check` is passed in:
`.error msg` is the failure tuple carrying the exception diagnostic,
`.ok response` the decoded JSON object.  Each `coe` call prints the failure
message and exits `STATE_UNKNOWN` on a failure tuple; otherwise perfdata is
built, the thresholds are evaluated, and `oao(msg, state, perfdata)` runs —
note the source passes no fourth argument to `oao`, so `always_ok` is its
default `False` regardless of `args.ALWAYS_OK`. -/
def mainRun (a : Args) (fetched : Except String JObj)
    (nowMicros : Int) : RunExit :=
  match fetched with
  | .error e => ⟨e, STATE_UNKNOWN⟩
  | .ok response =>
    match get_sec_last_status nowMicros response with
    | .error e => ⟨e, STATE_UNKNOWN⟩
    | .ok diffSecs =>
      match get_metrics response with
      | .error e => ⟨e, STATE_UNKNOWN⟩
      | .ok metrics =>
        match get_status response with
        | .error e => ⟨e, STATE_UNKNOWN⟩
        | .ok status =>
          let perfdata := perfdataOf metrics
          let ms := thresholdEval diffSecs a.WARN a.CRIT status
          oao ms.1 ms.2 perfdata false

/-- Outcome of `parse_args()`: either the parsed arguments, or a
`SystemExit` raised by argparse carrying the text printed to stdout (the
version string for the version action, nothing for errors, whose usage
text goes to stderr) and the exit code argparse used (0 for the version
action, 2 for a parse error). -/
inductive ParseOutcome where
  | ok (a : Args)
  | sysExit (stdoutText : String) (code : Int)
deriving DecidableEq

/-- The string the version action prints:
`'%(prog)s: v{} by {}'.format(__version__, __author__)`. -/
def versionString (prog : String) : String :=
  prog ++ ": v2022031701 by Andreas Bucher"

/-- Whether p is an initial segment of s (used for the `--opt=value`
argument form). -/
def strStartsWith (s p : String) : Bool :=
  List.isPrefixOf p.data s.data

/-- Remove the first n characters of s (used to split off an option's
`=value` part). -/
def strDrop (s : String) (n : Nat) : String :=
  ⟨s.data.drop n⟩

/-- Modelled from the argparse configuration of `parse_args` (lines
156-206): scan the argument tokens left to right.  `-V`/`--version`
triggers the version action (print and `SystemExit(0)`); `--always-ok`
stores true; `--host`, `--port` consume a string value (following token or
`--opt=value`); `-c`/`--critical` and `-w`/`--warning` consume a value
converted with `int`, failing the parse when conversion fails; any other
token, a missing option value, or a missing required `--host` at the end is
an argparse error (`SystemExit(2)`).  Argparse prefix abbreviation of long
options is not modelled. -/
def parseLoop (prog : String) : List String → Bool → Option String →
    String → Int → Int → ParseOutcome
  | [], ao, hostOpt, port, cr, wa =>
    match hostOpt with
    | some h => .ok ⟨ao, h, port, cr, wa⟩
    | none => .sysExit "" 2
  | tok :: rest, ao, hostOpt, port, cr, wa =>
    if tok = "-V" ∨ tok = "--version" then
      .sysExit (versionString prog) 0
    else if tok = "--always-ok" then
      parseLoop prog rest true hostOpt port cr wa
    else if tok = "--host" then
      match rest with
      | [] => .sysExit "" 2
      | v :: rs => parseLoop prog rs ao (some v) port cr wa
    else if strStartsWith tok "--host=" then
      parseLoop prog rest ao (some (strDrop tok 7)) port cr wa
    else if tok = "--port" then
      match rest with
      | [] => .sysExit "" 2
      | v :: rs => parseLoop prog rs ao hostOpt v cr wa
    else if strStartsWith tok "--port=" then
      parseLoop prog rest ao hostOpt (strDrop tok 7) cr wa
    else if tok = "-c" ∨ tok = "--critical" then
      match rest with
      | [] => .sysExit "" 2
      | v :: rs =>
        match pyIntOfStr v with
        | some n => parseLoop prog rs ao hostOpt port n wa
        | none => .sysExit "" 2
    else if strStartsWith tok "--critical=" then
      match pyIntOfStr (strDrop tok 11) with
      | some n => parseLoop prog rest ao hostOpt port n wa
      | none => .sysExit "" 2
    else if tok = "-w" ∨ tok = "--warning" then
      match rest with
      | [] => .sysExit "" 2
      | v :: rs =>
        match pyIntOfStr v with
        | some n => parseLoop prog rs ao hostOpt port cr n
        | none => .sysExit "" 2
    else if strStartsWith tok "--warning=" then
      match pyIntOfStr (strDrop tok 10) with
      | some n => parseLoop prog rest ao hostOpt port cr n
      | none => .sysExit "" 2
    else
      .sysExit "" 2

/-- `parse_args()` from the source: run the scan with the defaults
`ALWAYS_OK=False`, `HOST_PORT='8754'`, `CRIT=3600`, `WARN=600` and no host
(which is required). -/
def parse_args (prog : String) (argv : List String) : ParseOutcome :=
  parseLoop prog argv false none "8754" 3600 600

/-- The `try: args = parse_args() except SystemExit: sys.exit(STATE_UNKNOWN)`
prologue of `main` (lines 287-290): any `SystemExit` escaping argparse —
parse errors and the version action alike — becomes exit code 3. -/
def mainParsePhase (prog : String) (argv : List String) : Except Int Args :=
  match parse_args prog argv with
  | .ok a => .ok a
  | .sysExit _ _ => .error STATE_UNKNOWN

/-- A well-formed response: last aircraft message at epoch second 0,
counters 5/2/7, connected status, last connected at epoch second 500. -/
def respOK : JObj :=
  [("feed_last_ac_sent_time", JVal.jint 0),
   ("feed_num_ac_adsb_tracked", JVal.jint 5),
   ("feed_num_ac_non_adsb_tracked", JVal.jint 2),
   ("feed_num_ac_tracked", JVal.jint 7),
   ("feed_status", JVal.jstr "connected"),
   ("last_rx_connect_status", JVal.jstr "connected"),
   ("feed_last_connected_time", JVal.jint 500)]

/-- The metrics `get_metrics` extracts from `respOK`. -/
def metricsOK : Metrics := ⟨.jint 5, .jint 2, .jint 7⟩

/-- The status `get_status` extracts from `respOK`. -/
def statusOK : StatusInfo :=
  ⟨.jstr "connected", .jstr "connected", "1970-01-01 00:08:20"⟩

/-- Arguments with the CLI defaults (warning 600, critical 3600) and the
always-ok flag off. -/
def argsDefault : Args := ⟨false, "192.0.2.1", "8754", 3600, 600⟩

/-- The same arguments with the always-ok flag on. -/
def argsAlwaysOk : Args := ⟨true, "192.0.2.1", "8754", 3600, 600⟩

/-- A response carrying only the freshness field: metrics extraction is the
first step to fail on it. -/
def respFreshOnly : JObj := [("feed_last_ac_sent_time", JVal.jint 0)]

/-- A response with valid freshness and metrics but no status fields:
status extraction is the first step to fail on it. -/
def respNoStatus : JObj :=
  [("feed_last_ac_sent_time", JVal.jint 0),
   ("feed_num_ac_adsb_tracked", JVal.jint 5),
   ("feed_num_ac_non_adsb_tracked", JVal.jint 2),
   ("feed_num_ac_tracked", JVal.jint 7)]

/-- A response whose three counters are all non-numeric strings. -/
def respStrMetrics : JObj :=
  [("feed_num_ac_adsb_tracked", JVal.jstr "alpha"),
   ("feed_num_ac_non_adsb_tracked", JVal.jstr "beta"),
   ("feed_num_ac_tracked", JVal.jstr "gamma")]

/-- A response whose freshness timestamp lies 300 seconds after the epoch,
used with a current time of 250 seconds to exercise clock skew. -/
def respFreshFuture : JObj := [("feed_last_ac_sent_time", JVal.jint 300)]

/-- A response whose freshness timestamp is one second past the largest
timestamp `datetime.utcfromtimestamp` accepts. -/
def respFreshHuge : JObj :=
  [("feed_last_ac_sent_time", JVal.jint 253402300800)]

end Fr24

namespace Fr24

theorem micros_div_split (td : Nat) :
    td / 86400000000 * 86400 + td / 1000000 % 86400 = td / 1000000 := by
  have h : td / 86400000000 = td / 1000000 / 86400 := by
    rw [Nat.div_div_eq_div_mul]
  rw [h, Nat.add_comm, Nat.mul_comm, Nat.mod_add_div]

theorem perfdataOf_ne_empty (m : Metrics) : perfdataOf m ≠ "" := by
  intro h
  have hl : (perfdataOf m).length = 0 := by rw [h]; rfl
  simp only [perfdataOf, get_perfdata, String.length_append] at hl
  have h1 : ("'" : String).length = 1 := rfl
  omega

theorem mainRun_ok (a : Args) (resp : JObj) (now : Int) (e : Nat)
    (m : Metrics) (st : StatusInfo)
    (h1 : get_sec_last_status now resp = .ok e)
    (h2 : get_metrics resp = .ok m)
    (h3 : get_status resp = .ok st) :
    mainRun a (.ok resp) now
      = oao (thresholdEval e a.WARN a.CRIT st).1
          (thresholdEval e a.WARN a.CRIT st).2 (perfdataOf m) false := by
  simp only [mainRun, h1, h2, h3]

/-- C1: with elapsed seconds e and thresholds w (warning) and c (critical),
e exceeding c gives the critical message and state 2 — and process exit
code 2 — before the warning test is ever consulted; otherwise e exceeding w
gives the warning message and state 1 and exit code 1; otherwise the verdict
is healthy, state and exit code 0.  Both boundaries are exclusive: e = c
falls through to the warning test and e = w falls through to healthy. -/
theorem threshold_order_and_boundaries (a : Args) (resp : JObj) (now : Int)
    (e : Nat) (m : Metrics) (st : StatusInfo)
    (h1 : get_sec_last_status now resp = .ok e)
    (h2 : get_metrics resp = .ok m)
    (h3 : get_status resp = .ok st) :
    ((e : Int) > a.CRIT →
        thresholdEval e a.WARN a.CRIT st
          = ("CRIT threshold reached: " ++ toString e, 2)
        ∧ (mainRun a (.ok resp) now).exitCode = 2)
  ∧ ((e : Int) ≤ a.CRIT → (e : Int) > a.WARN →
        thresholdEval e a.WARN a.CRIT st
          = ("WARN threshold reached: " ++ toString e, 1)
        ∧ (mainRun a (.ok resp) now).exitCode = 1)
  ∧ ((e : Int) ≤ a.CRIT → (e : Int) ≤ a.WARN →
      ∀ s, st.feed_status = .jstr s →
        (thresholdEval e a.WARN a.CRIT st).2 = 0
        ∧ (mainRun a (.ok resp) now).exitCode = 0) := by
  have hmain := mainRun_ok a resp now e m st h1 h2 h3
  have hexit : (mainRun a (.ok resp) now).exitCode
      = (thresholdEval e a.WARN a.CRIT st).2 := by
    rw [hmain]; rfl
  refine ⟨fun hc => ?_, fun hc hw => ?_, fun hc hw s hs => ?_⟩
  · have ht : thresholdEval e a.WARN a.CRIT st
        = ("CRIT threshold reached: " ++ toString e, 2) := by
      simp only [thresholdEval]; rw [if_pos hc]; rfl
    exact ⟨ht, by rw [hexit, ht]⟩
  · have ht : thresholdEval e a.WARN a.CRIT st
        = ("WARN threshold reached: " ++ toString e, 1) := by
      simp only [thresholdEval];
      rw [if_neg (not_lt.mpr hc), if_pos hw]; rfl
    exact ⟨ht, by rw [hexit, ht]⟩
  · have ht : (thresholdEval e a.WARN a.CRIT st).2 = 0 := by
      simp only [thresholdEval]
      rw [if_neg (not_lt.mpr hc), if_neg (not_lt.mpr hw), hs]; rfl
    exact ⟨ht, by rw [hexit, ht]⟩

/-- Witness for C1: the spec's critical example — last upload 4000 seconds
ago with the default thresholds 600/3600 is critical with exit code 2. -/
theorem threshold_order_and_boundaries_witness :
    thresholdEval 4000 argsDefault.WARN argsDefault.CRIT statusOK
      = ("CRIT threshold reached: " ++ toString (4000 : Nat), 2)
    ∧ (mainRun argsDefault (.ok respOK) 4000000000).exitCode = 2 :=
  (threshold_order_and_boundaries argsDefault respOK 4000000000 4000
    metricsOK statusOK (by decide) (by decide) (by decide)).1 (by decide)


/-- C2 (code bug): `main` calls `oao(msg, state, perfdata)` without passing
`args.ALWAYS_OK`, so the flag never reaches `oao` and the exit code is not
forced to 0: with the flag set and a response 4000 seconds stale under the
default thresholds the process still exits 2, and the whole run is
identical to the run without the flag. -/
theorem always_ok_flag_ignored :
    argsAlwaysOk.ALWAYS_OK = true
  ∧ (mainRun argsAlwaysOk (.ok respOK) 4000000000).exitCode = STATE_CRIT
  ∧ mainRun argsAlwaysOk (.ok respOK) 4000000000
      = mainRun argsDefault (.ok respOK) 4000000000 :=
  ⟨rfl, by decide, by decide⟩

/-- C3: the post-fetch pipeline runs fetch, freshness, metrics, status in
that order through `coe`; the first failing step's diagnostic is the entire
printed output and the process exits `STATE_UNKNOWN` (3) with no perfdata
and no threshold evaluation, regardless of what later steps would do. -/
theorem first_failing_step_aborts (a : Args) (now : Int) (e : String)
    (resp : JObj) :
    mainRun a (.error e) now = ⟨e, STATE_UNKNOWN⟩
  ∧ (get_sec_last_status now resp = .error e →
      mainRun a (.ok resp) now = ⟨e, STATE_UNKNOWN⟩)
  ∧ (∀ d, get_sec_last_status now resp = .ok d →
      get_metrics resp = .error e →
      mainRun a (.ok resp) now = ⟨e, STATE_UNKNOWN⟩)
  ∧ (∀ d m, get_sec_last_status now resp = .ok d →
      get_metrics resp = .ok m → get_status resp = .error e →
      mainRun a (.ok resp) now = ⟨e, STATE_UNKNOWN⟩) := by
  refine ⟨rfl, fun h1 => ?_, fun d h1 h2 => ?_, fun d m h1 h2 h3 => ?_⟩
  · simp only [mainRun, h1]
  · simp only [mainRun, h1, h2]
  · simp only [mainRun, h1, h2, h3]

/-- Witness for C3: a response with valid freshness and metrics but no
status block prints only the status diagnostic and exits 3. -/
theorem first_failing_step_aborts_witness :
    mainRun argsDefault (.ok respNoStatus) 0 = ⟨statusErr, STATE_UNKNOWN⟩ :=
  (first_failing_step_aborts argsDefault 0 statusErr respNoStatus).2.2.2
    0 metricsOK (by decide) (by decide) (by decide)

/-- C4 (amended): when `feed_last_ac_sent_time` is present, converts to an
integer t, and t lies within the range `datetime.utcfromtimestamp` accepts,
the freshness extraction returns the absolute difference between the
current time and t truncated to whole seconds — a non-negative number even
when t lies in the future of now (`now` is in microseconds, t in seconds,
so the elapsed whole seconds are natAbs (now - t*1000000) / 1000000). -/
theorem freshness_abs_diff (now : Int) (resp : JObj) (v : JVal) (t : Int)
    (h1 : List.lookup "feed_last_ac_sent_time" resp = some v)
    (h2 : pyInt v = some t)
    (h3 : datetimeMinTs ≤ t) (h4 : t ≤ datetimeMaxTs) :
    get_sec_last_status now resp
      = .ok ((now - t * 1000000).natAbs / 1000000) := by
  simp only [get_sec_last_status, h1, h2]
  rw [if_pos ⟨h3, h4⟩, micros_div_split]

/-- Witness for C4: a timestamp 300 in the future of now = 250.0 seconds —
clock skew — still yields the non-negative magnitude 50. -/
theorem freshness_abs_diff_witness :
    get_sec_last_status 250000000 respFreshFuture
      = .ok (((250000000 : Int) - 300 * 1000000).natAbs / 1000000) :=
  freshness_abs_diff 250000000 respFreshFuture (.jint 300) 300
    (by decide) rfl (by decide) (by decide)

/-- Counterexample for C4: the value 253402300800 converts to an integer
just past the last timestamp `datetime` can represent, so the extraction
returns the failure result, not the elapsed seconds the claim promises. -/
theorem freshness_out_of_range_fails :
    get_sec_last_status 0 respFreshHuge = .error lastStatusErr
  ∧ get_sec_last_status 0 respFreshHuge
      ≠ .ok (((0 : Int) - 253402300800 * 1000000).natAbs / 1000000)
  ∧ pyInt (JVal.jint 253402300800) = some 253402300800
  ∧ (253402300800 : Int) = datetimeMaxTs + 1 := by
  refine ⟨by decide, by decide, rfl, by decide⟩


/-- C5 (amended): absence of any of the seven required fields makes the
extraction step that reads it fail with its fixed diagnostic; a value that
`int` rejects fails the step only for the two fields that are converted —
`feed_last_ac_sent_time` in freshness and `feed_last_connected_time` in
status; the three metrics counters are copied without conversion, so
non-numeric values there do not fail metrics extraction. -/
theorem required_fields (resp : JObj) (now : Int) :
    (List.lookup "feed_last_ac_sent_time" resp = none →
        get_sec_last_status now resp = .error lastStatusErr)
  ∧ (∀ v, List.lookup "feed_last_ac_sent_time" resp = some v →
        pyInt v = none → get_sec_last_status now resp = .error lastStatusErr)
  ∧ (List.lookup "feed_num_ac_adsb_tracked" resp = none →
        get_metrics resp = .error metricsErr)
  ∧ (List.lookup "feed_num_ac_non_adsb_tracked" resp = none →
        get_metrics resp = .error metricsErr)
  ∧ (List.lookup "feed_num_ac_tracked" resp = none →
        get_metrics resp = .error metricsErr)
  ∧ (List.lookup "feed_status" resp = none →
        get_status resp = .error statusErr)
  ∧ (List.lookup "last_rx_connect_status" resp = none →
        get_status resp = .error statusErr)
  ∧ (List.lookup "feed_last_connected_time" resp = none →
        get_status resp = .error statusErr)
  ∧ (∀ v, List.lookup "feed_last_connected_time" resp = some v →
        pyInt v = none → get_status resp = .error statusErr)
  ∧ (∀ a n s, List.lookup "feed_num_ac_adsb_tracked" resp = some a →
        List.lookup "feed_num_ac_non_adsb_tracked" resp = some n →
        List.lookup "feed_num_ac_tracked" resp = some s →
        get_metrics resp = .ok ⟨a, n, s⟩) := by
  refine ⟨fun h => ?_, fun v hv hp => ?_, fun h => ?_, fun h => ?_,
    fun h => ?_, fun h => ?_, fun h => ?_, fun h => ?_, fun v hv hp => ?_,
    fun a n s ha hn hs => ?_⟩
  · simp only [get_sec_last_status, h]
  · simp only [get_sec_last_status, hv, hp]
  · simp only [get_metrics, h]
  · cases hA : List.lookup "feed_num_ac_adsb_tracked" resp <;>
      simp only [get_metrics, hA, h]
  · cases hA : List.lookup "feed_num_ac_adsb_tracked" resp <;>
      cases hN : List.lookup "feed_num_ac_non_adsb_tracked" resp <;>
      simp only [get_metrics, hA, hN, h]
  · simp only [get_status, h]
  · cases hF : List.lookup "feed_status" resp <;>
      simp only [get_status, hF, h]
  · cases hF : List.lookup "feed_status" resp <;>
      cases hR : List.lookup "last_rx_connect_status" resp <;>
      simp only [get_status, hF, hR, h]
  · cases hF : List.lookup "feed_status" resp <;>
      cases hR : List.lookup "last_rx_connect_status" resp <;>
      simp only [get_status, hF, hR, hv, hp]
  · simp only [get_metrics, ha, hn, hs]

/-- Witness for C5: an empty response fails freshness extraction with the
fixed diagnostic. -/
theorem required_fields_witness :
    get_sec_last_status 0 ([] : JObj) = .error lastStatusErr :=
  (required_fields [] 0).1 rfl

/-- Counterexample for C5: all three counters present but carrying
non-numeric strings — metrics extraction succeeds instead of failing. -/
theorem nonnumeric_metrics_accepted :
    get_metrics respStrMetrics
      = .ok ⟨.jstr "alpha", .jstr "beta", .jstr "gamma"⟩
  ∧ pyInt (JVal.jstr "alpha") = none := by
  exact ⟨by decide, by decide⟩

/-- C6 (amended): a response that lacks `feed_num_ac_tracked` prints exactly
`ValueError: Metrics could not be parsed` and exits 3 provided freshness
extraction succeeded; freshness runs first, so when it also fails its own
diagnostic is printed instead (still exit 3). -/
theorem missing_sum_tracked (a : Args) (resp : JObj) (now : Int) (d : Nat)
    (h1 : List.lookup "feed_num_ac_tracked" resp = none)
    (h2 : get_sec_last_status now resp = .ok d) :
    mainRun a (.ok resp) now = ⟨metricsErr, STATE_UNKNOWN⟩ := by
  have hm : get_metrics resp = .error metricsErr := by
    cases hA : List.lookup "feed_num_ac_adsb_tracked" resp <;>
      cases hN : List.lookup "feed_num_ac_non_adsb_tracked" resp <;>
      simp only [get_metrics, hA, hN, h1]
  simp only [mainRun, h2, hm]

/-- Witness for C6: a response with only a valid freshness field prints the
metrics diagnostic and exits 3. -/
theorem missing_sum_tracked_witness :
    mainRun argsDefault (.ok respFreshOnly) 0
      = ⟨metricsErr, STATE_UNKNOWN⟩ :=
  missing_sum_tracked argsDefault respFreshOnly 0 0 (by decide) (by decide)

/-- Counterexample for C6: the empty response lacks `feed_num_ac_tracked`,
yet the printed message is the freshness diagnostic, not the metrics one
(freshness extraction fails first). -/
theorem missing_sum_tracked_empty_response :
    (mainRun argsDefault (.ok ([] : JObj)) 0).output = lastStatusErr
  ∧ (mainRun argsDefault (.ok ([] : JObj)) 0).output ≠ metricsErr
  ∧ List.lookup "feed_num_ac_tracked" ([] : JObj) = none := by
  exact ⟨by decide, by decide, rfl⟩

/-- C7 (code bug): `--version` makes argparse print the version string and
raise `SystemExit(0)`, but the blanket `except SystemExit` in `main` turns
that into `sys.exit(STATE_UNKNOWN)`: the version string is printed and the
process exits 3, not the claimed 0. -/
theorem version_flag_exits_unknown :
    parse_args "check_fr24feed.py" ["--version"]
      = .sysExit (versionString "check_fr24feed.py") 0
  ∧ mainParsePhase "check_fr24feed.py" ["--version"]
      = .error STATE_UNKNOWN
  ∧ STATE_UNKNOWN ≠ (0 : Int) := by
  exact ⟨by decide, by decide, by decide⟩

/-- C8: whenever argparse raises `SystemExit` — malformed arguments or the
required `--host` missing (an empty command line yields the argparse error
exit 2) — `main` terminates with `STATE_UNKNOWN` (3) instead of the
argparse exit code. -/
theorem parse_failure_exits_unknown (prog : String) (argv : List String)
    (txt : String) (c : Int)
    (h : parse_args prog argv = .sysExit txt c) :
    mainParsePhase prog argv = .error STATE_UNKNOWN
  ∧ parse_args prog [] = .sysExit "" 2
  ∧ mainParsePhase prog [] = .error STATE_UNKNOWN := by
  refine ⟨?_, rfl, rfl⟩
  simp only [mainParsePhase, h]

/-- Witness for C8: an unrecognized flag (and, in the second and third
conjuncts, a command line missing the required host) exits 3. -/
theorem parse_failure_exits_unknown_witness :
    mainParsePhase "check_fr24feed.py" ["--badflag"] = .error STATE_UNKNOWN
  ∧ parse_args "check_fr24feed.py" [] = .sysExit "" 2
  ∧ mainParsePhase "check_fr24feed.py" [] = .error STATE_UNKNOWN :=
  parse_failure_exits_unknown "check_fr24feed.py" ["--badflag"] "" 2
    (by decide)


theorem get_perfdata_min0 (l : String) (v : JVal) :
    get_perfdata l v none none none (some (.jint 0)) none
      = "'" ++ l ++ "'=" ++ pyStr v ++ ";;;0; " := by
  simp only [get_perfdata, optStr, String.append_empty, String.append_assoc]
  rfl

/-- C9: whenever threshold evaluation is reached, the printed line is the
stripped message, a literal bar, and the stripped perfdata; the perfdata is
exactly the three counters, each rendered as the label in single quotes,
an equals sign, the value, empty unit/warn/crit components, a minimum of 0
and an empty maximum — four semicolons kept — plus a trailing space, e.g.
a counter value 5 yields the fragment the claim quotes. -/
theorem perfdata_format (a : Args) (resp : JObj) (now : Int) (e : Nat)
    (m : Metrics) (st : StatusInfo)
    (h1 : get_sec_last_status now resp = .ok e)
    (h2 : get_metrics resp = .ok m)
    (h3 : get_status resp = .ok st) :
    (mainRun a (.ok resp) now).output
      = pyStrip (thresholdEval e a.WARN a.CRIT st).1 ++ "|"
        ++ pyStrip (perfdataOf m)
  ∧ perfdataOf m
      = ("'" ++ "adsb_tracked" ++ "'=" ++ pyStr m.adsb_tracked ++ ";;;0; ")
        ++ ("'" ++ "non_adsb_tracked" ++ "'="
            ++ pyStr m.non_adsb_tracked ++ ";;;0; ")
        ++ ("'" ++ "sum_tracked" ++ "'=" ++ pyStr m.sum_tracked ++ ";;;0; ")
  ∧ get_perfdata "adsb_tracked" (.jint 5) none none none (some (.jint 0))
        none
      = "'adsb_tracked'=5;;;0; " := by
  refine ⟨?_, ?_, by decide⟩
  · rw [mainRun_ok a resp now e m st h1 h2 h3]
    simp only [oao]
    rw [if_neg (perfdataOf_ne_empty m)]
  · simp only [perfdataOf, get_perfdata_min0]

/-- Witness for C9: the spec's healthy example — 100 seconds since last
upload, counters 5/2/7 — prints the healthy message, the bar, and the
stripped perfdata. -/
theorem perfdata_format_witness :
    (mainRun argsDefault (.ok respOK) 100000000).output
      = pyStrip (thresholdEval 100 argsDefault.WARN argsDefault.CRIT
            statusOK).1
        ++ "|" ++ pyStrip (perfdataOf metricsOK) :=
  (perfdata_format argsDefault respOK 100000000 100 metricsOK statusOK
    (by decide) (by decide) (by decide)).1

/-- C10: the warning and critical messages are exactly the threshold texts
with the elapsed value and are independent of the extracted status; the
feeder status text and last-connected timestamp appear (appended after the
healthy prefix) only in the healthy branch; and status extraction must
still succeed for the run to reach any branch — a status failure aborts
the run with its diagnostic and exit 3. -/
theorem status_only_in_healthy (e : Nat) (w c : Int)
    (st st2 : StatusInfo) :
    ((e : Int) > c →
        (thresholdEval e w c st).1 = "CRIT threshold reached: " ++ toString e
        ∧ (thresholdEval e w c st).1 = (thresholdEval e w c st2).1)
  ∧ ((e : Int) ≤ c → (e : Int) > w →
        (thresholdEval e w c st).1 = "WARN threshold reached: " ++ toString e
        ∧ (thresholdEval e w c st).1 = (thresholdEval e w c st2).1)
  ∧ ((e : Int) ≤ c → (e : Int) ≤ w → ∀ s, st.feed_status = .jstr s →
        (thresholdEval e w c st).1
          = "Feeder: OK - " ++ toString e ++ "s since last upload"
            ++ "\nStatus: "
            ++ (s ++ " since " ++ st.feed_last_connected_time))
  ∧ (∀ (a : Args) (resp : JObj) (now : Int) (err : String) (d : Nat)
        (m : Metrics),
      get_sec_last_status now resp = .ok d → get_metrics resp = .ok m →
      get_status resp = .error err →
      mainRun a (.ok resp) now = ⟨err, STATE_UNKNOWN⟩) := by
  refine ⟨fun hc => ?_, fun hc hw => ?_, fun hc hw s hs => ?_,
    fun a resp now err d m h1 h2 h3 => ?_⟩
  · have p : ∀ u : StatusInfo,
        (thresholdEval e w c u).1
          = "CRIT threshold reached: " ++ toString e := by
      intro u; simp only [thresholdEval]; rw [if_pos hc]
    exact ⟨p st, (p st).trans (p st2).symm⟩
  · have p : ∀ u : StatusInfo,
        (thresholdEval e w c u).1
          = "WARN threshold reached: " ++ toString e := by
      intro u; simp only [thresholdEval]
      rw [if_neg (not_lt.mpr hc), if_pos hw]
    exact ⟨p st, (p st).trans (p st2).symm⟩
  · simp only [thresholdEval]
    rw [if_neg (not_lt.mpr hc), if_neg (not_lt.mpr hw), hs]
  · simp only [mainRun, h1, h2, h3]

/-- Witness for C10: the healthy branch at 100 elapsed seconds appends the
status text and last-connected time to the healthy prefix. -/
theorem status_only_in_healthy_witness :
    (thresholdEval 100 600 3600 statusOK).1
      = "Feeder: OK - " ++ toString (100 : Nat) ++ "s since last upload"
        ++ "\nStatus: "
        ++ ("connected" ++ " since " ++ statusOK.feed_last_connected_time) :=
  (status_only_in_healthy 100 600 3600 statusOK statusOK).2.2.1
    (by decide) (by decide) "connected" rfl

end Fr24
